import Mathlib

/-!  Formal model of the process-supervision core of `swarms/tools/main.py`:
the `SyscallTracer` (a ptrace-based monitoring loop, lines 270-351) and the
`StdoutTracer` (a non-blocking output-polling loop, lines 367-426).

Both loops interact with the operating system (blocking waits, pipe reads,
process polls, wall-clock reads).  Each interaction point is represented by
an explicit trace of environment responses, and the loop bodies are
translated statement by statement from the Python source.  Side effects
(arming/disarming the interval timer, detaching the debugger, killing the
process, invoking the output callback) are recorded in explicit effect
counters so that theorems can speak about them. -/

namespace Swarms

/-- Modelled from the spec: `ptrace.tools.signal_to_exitcode` belongs to the
external `python-ptrace` dependency, not to this repository; the spec states
that a delivered signal "is mapped to a conventional 128 + signal number
style synthetic code". -/
def signal_to_exitcode (signum : Int) : Int := 128 + signum

/-- The message built by `SyscallTimeoutException.__init__` (main.py 265-267):
`f"deadline exceeded while waiting syscall for \x7bpid\x7d"`. -/
def syscallTimeoutMessage (pid : Int) : String :=
  "deadline exceeded while waiting syscall for " ++ toString pid

namespace SyscallTracer

/-- Observable side effects of one `SyscallTracer.wait_until_stop_or_exit`
invocation.  `armCount`/`disarmCount` count `signal.alarm(timeout)` /
`signal.alarm(0)` calls (`set_timer` line 288-293 / `reset_timer` line
295-296); `timerArmed` is the state of the process-wide interval timer;
`detachCount` counts calls to `SyscallTracer.detach` (lines 284-286);
`injected` lists the signal numbers re-injected via
`event.process.syscall(event.signum)` (line 318); `resumeCount` counts
plain `self.process.syscall()` resumptions (lines 304, 341). -/
structure SysEff where
  armCount : Nat
  disarmCount : Nat
  timerArmed : Bool
  detachCount : Nat
  injected : List Int
  resumeCount : Nat
  deriving DecidableEq

/-- Effect state at the start of the call: nothing armed, nothing counted. -/
def SysEff.init : SysEff := ⟨0, 0, false, 0, [], 0⟩

/-- `set_timer` (lines 288-293): installs the SIGALRM handler and arms the
interval timer with `signal.alarm(timeout)`. -/
def set_timer (e : SysEff) : SysEff :=
  ⟨e.armCount + 1, e.disarmCount, true, e.detachCount, e.injected, e.resumeCount⟩

/-- `reset_timer` (lines 295-296): `signal.alarm(0)` disarms the timer. -/
def reset_timer (e : SysEff) : SysEff :=
  ⟨e.armCount, e.disarmCount + 1, false, e.detachCount, e.injected, e.resumeCount⟩

/-- `self.process.syscall()` (lines 304 and 341): resume the traced process. -/
def resume (e : SysEff) : SysEff :=
  ⟨e.armCount, e.disarmCount, e.timerArmed, e.detachCount, e.injected, e.resumeCount + 1⟩

/-- `event.process.syscall(event.signum)` (line 318): resume the traced
process re-injecting the delivered signal. -/
def resumeWithSignal (s : Int) (e : SysEff) : SysEff :=
  ⟨e.armCount, e.disarmCount, e.timerArmed, e.detachCount, e.injected ++ [s], e.resumeCount + 1⟩

/-- Outcome of one `wait_syscall_with_timeout` call (lines 298-301), as
discriminated by the `except` clauses of `wait_until_stop_or_exit` (lines
311-328).  `stopped` is the normal return (`waitSyscall` returned after a
syscall-stop); its payload models the result of
`self.process.syscall_state.event(...)` (lines 330-339): `none` when the
event is `None`, otherwise the truthiness of `syscall.result`.
`otherError` covers every exception reaching the final `except Exception`
clause, including the `SyscallTimeoutException` raised by the SIGALRM
handler. -/
inductive WaitOutcome
  | processExit (code : Option Int)
  | processSignal (signum : Int) (eventReason : String)
  | newProcessEvent
  | processExecution
  | otherError (msg : String)
  | stopped (syscallResult : Option Bool)
  deriving DecidableEq

/-- One loop iteration of `wait_until_stop_or_exit` as seen from the
environment: either the debugger is falsy at the top-of-loop check
(`if not self.debugger: break`, lines 308-309), or the blocking wait
produces a `WaitOutcome`. -/
inductive SysIter
  | emptyDbg
  | wait (outcome : WaitOutcome)
  deriving DecidableEq

/-- Which `break` (if any) ended the `while True` loop. -/
inductive SysTerm
  | emptyBreak
  | errorBreak
  | outOfTrace
  deriving DecidableEq

/-- Result of a (partial) run of the monitoring loop: how it stopped, the
`exitcode` and `reason` variables, the accumulated effects, and how many
trace entries were consumed. -/
structure SysResult where
  term : SysTerm
  exitcode : Option Int
  reason : String
  eff : SysEff
  consumed : Nat
  deriving DecidableEq

/-- Increment the consumed-iterations count of a result. -/
def bump (r : SysResult) : SysResult :=
  ⟨r.term, r.exitcode, r.reason, r.eff, r.consumed + 1⟩

/-- The `while True` loop of `wait_until_stop_or_exit` (lines 307-347),
translated clause by clause.  Each `.wait` iteration first arms the timer
(`wait_syscall_with_timeout` calls `set_timer`, line 299); only the normal
`stopped` return reaches `reset_timer` (line 301) - every `except` clause
skips it.  `ProcessExit` keeps the old `exitcode` when the event carries
`None` (line 314); `ProcessSignal` re-injects the signal, then sets
`exitcode = signal_to_exitcode(signum)` and `reason = event.reason` (lines
317-321); `NewProcessEvent` and `ProcessExecution` just continue;
any other exception stores its message in `reason` and breaks (lines
326-328).  After a `stopped` return the syscall-state event is computed and
the process resumed (line 341); all three of its cases continue the loop. -/
def sysLoop (exitcode : Option Int) (reason : String) (eff : SysEff) :
    List SysIter → SysResult
  | [] => ⟨.outOfTrace, exitcode, reason, eff, 0⟩
  | .emptyDbg :: _ => ⟨.emptyBreak, exitcode, reason, eff, 1⟩
  | .wait o :: rest =>
    match o with
    | .stopped _ =>
      bump (sysLoop exitcode reason (resume (reset_timer (set_timer eff))) rest)
    | .processExit code =>
      bump (sysLoop (match code with | some c => some c | none => exitcode)
        reason (set_timer eff) rest)
    | .processSignal s r =>
      bump (sysLoop (some (signal_to_exitcode s)) r
        (resumeWithSignal s (set_timer eff)) rest)
    | .newProcessEvent => bump (sysLoop exitcode reason (set_timer eff) rest)
    | .processExecution => bump (sysLoop exitcode reason (set_timer eff) rest)
    | .otherError msg => ⟨.errorBreak, exitcode, msg, set_timer eff, 1⟩

/-- The code after the loop (lines 349-351): `self.reset_timer()` runs once
the loop has broken; a run that is still inside the loop (out of trace) has
not reached it. -/
def finishRun (r : SysResult) : SysResult :=
  match r.term with
  | .outOfTrace => r
  | t => ⟨t, r.exitcode, r.reason, reset_timer r.eff, r.consumed⟩

/-- `SyscallTracer.wait_until_stop_or_exit` (lines 303-351): resume the
process once (line 304), initialise `exitcode = None`, `reason = ""`
(lines 305-306), run the loop over the environment trace, then disarm the
timer and return. -/
def wait_until_stop_or_exit (trace : List SysIter) : SysResult :=
  finishRun (sysLoop none "" (resume SysEff.init) trace)

/-- A trace entry that neither sets `exitcode`/`reason` nor breaks the loop
with an error: a `ProcessExit` event carrying no exit code (line 314 leaves
`exitcode` unchanged), a new-child or exec event, a normal syscall-stop, or
the debugger turning falsy (which breaks the loop normally). -/
def benignAfter : SysIter → Bool
  | .emptyDbg => true
  | .wait (.processExit code) => code.isNone
  | .wait (.processSignal _ _) => false
  | .wait .newProcessEvent => true
  | .wait .processExecution => true
  | .wait (.otherError _) => false
  | .wait (.stopped _) => true

/-- `SyscallTracer.__init__` (lines 271-274) sets `self.process = None`;
only a successful `attach` (line 282) replaces it with a process handle
(modelled by its pid). -/
def processAfterInit : Option Int := none

/-- `SyscallTracer.detach` (lines 284-286): `self.process.detach()` followed
by `self.debugger.quit()`.  Attribute access on `None` raises
`AttributeError`, which this translation returns as an error. -/
def detach (process : Option Int) : Except String Unit :=
  match process with
  | none => .error "AttributeError: NoneType object has no attribute detach"
  | some _ => .ok ()

end SyscallTracer

namespace StdoutTracer

/-- The calling convention of a Python callable passed as `on_output`:
the number of positional parameters it accepts. -/
structure PyCallable where
  arity : Nat
  deriving DecidableEq

/-- The default `on_output` of `StdoutTracer.__init__` (line 373):
`lambda: None`, a callable taking zero parameters. -/
def defaultOnOutput : PyCallable := ⟨0⟩

/-- The TypeError message raised when a callable of the given arity is
invoked with two positional arguments. -/
def typeErrMsg (cb : PyCallable) : String :=
  "TypeError: on_output() takes " ++ toString cb.arity ++
    " positional arguments but 2 were given"

/-- `self.on_output(pipe, decoded)` (line 394): invoking the callback with
two positional arguments raises TypeError unless it accepts exactly two. -/
def callOnOutput (cb : PyCallable) : Except String Unit :=
  if cb.arity = 2 then .ok () else .error (typeErrMsg cb)

/-- Decode a pipe read result: `none` models a `None` return from a
non-blocking `read()` with no data available; a string models the decoded
bytes (empty bytes decode to the empty string). -/
def chunk : Option String → String
  | none => ""
  | some s => s

/-- One loop iteration of `StdoutTracer.wait_until_stop_or_exit` as seen
from the environment: the two non-blocking reads (`process.stdout.read()`
and `process.stderr.read()`, lines 388 and 390), the `datetime.now()`
values taken if the corresponding read is non-empty (line 395), the
`process.poll()` result (line 416), and the `datetime.now()` value taken by
`last_output_passed` (line 400). -/
structure StdIter where
  stdoutRead : Option String
  tOut : Nat
  stderrRead : Option String
  tErr : Nat
  poll : Option Int
  tCheck : Nat
  deriving DecidableEq

/-- The text a single iteration contributes to the accumulated output:
the stdout chunk followed by the stderr chunk (lines 408-414). -/
def StdIter.text (it : StdIter) : String :=
  chunk it.stdoutRead ++ chunk it.stderrRead

/-- `StdoutTracer.get_output` (lines 385-397), for one pipe: read the pipe;
if the result is truthy, decode it, invoke `on_output` (which may raise),
update `last_output` to now, and return the decoded text; otherwise return
the empty string leaving `last_output` unchanged.  The returned flag
records whether `on_output` was (successfully) invoked. -/
def get_output (cb : PyCallable) (readRes : Option String) (tNow last_output : Nat) :
    Except String (String × Nat × Bool) :=
  let output := chunk readRes
  if output = "" then .ok ("", last_output, false)
  else
    match callOnOutput cb with
    | .error e => .error e
    | .ok _ => .ok (output, tNow, true)

/-- `StdoutTracer.last_output_passed` (lines 399-400):
`(datetime.now() - self.last_output).seconds > seconds`.  Times are in
milliseconds; `timedelta.seconds` is the whole-seconds component of the
delta, i.e. the truncated total seconds reduced modulo one day. -/
def last_output_passed (tNow last_output : Nat) (seconds : Nat) : Bool :=
  ((tNow - last_output) / 1000) % 86400 > seconds

/-- Which branch (if any) broke the `while True` loop (lines 407-424):
`exited` is the `process.poll() is not None` break (lines 416-418), `hang`
is the silence-timeout break that kills the process (lines 420-422). -/
inductive StdCause
  | exited
  | hang
  deriving DecidableEq

/-- How a (partial) run of the output-polling loop stopped: a `break`, an
exception propagating out of the loop (the source has no handler), or the
environment trace being exhausted with the loop still running. -/
inductive StdTerm
  | broke (cause : StdCause)
  | raised (msg : String)
  | outOfTrace
  deriving DecidableEq

/-- Result of a (partial) run of the output-polling loop: how it stopped,
the `exitcode` and `output` variables, the current `last_output` timestamp,
the number of `process.kill()` calls (line 421), the number of successful
`on_output` invocations, and how many trace entries were consumed. -/
structure StdResult where
  term : StdTerm
  exitcode : Option Int
  output : String
  last_output : Nat
  killCount : Nat
  relayCount : Nat
  consumed : Nat
  deriving DecidableEq

/-- Increment the consumed-iterations count of a result. -/
def stdBump (r : StdResult) : StdResult :=
  ⟨r.term, r.exitcode, r.output, r.last_output, r.killCount, r.relayCount, r.consumed + 1⟩

/-- The `while True` loop of `StdoutTracer.wait_until_stop_or_exit`
(lines 407-424), translated statement by statement: read stdout, append if
truthy; read stderr, append if truthy; if `process.poll()` is not `None`,
record it as the exit code and break; else if the silence timeout passed,
kill the process and break; else sleep for the poll interval (absorbed into
the trace timestamps) and loop.  An exception raised inside `get_output`
(the callback) propagates - the loop has no handler. -/
def stdLoop (cb : PyCallable) (timeout : Nat) (last_output : Nat)
    (exitcode : Option Int) (output : String) (kills relays : Nat) :
    List StdIter → StdResult
  | [] => ⟨.outOfTrace, exitcode, output, last_output, kills, relays, 0⟩
  | it :: rest =>
    match get_output cb it.stdoutRead it.tOut last_output with
    | .error e => ⟨.raised e, exitcode, output, last_output, kills, relays, 1⟩
    | .ok (new_stdout, last1, r1) =>
      let output1 := if new_stdout ≠ "" then output ++ new_stdout else output
      let relays1 := if r1 then relays + 1 else relays
      match get_output cb it.stderrRead it.tErr last1 with
      | .error e => ⟨.raised e, exitcode, output1, last1, kills, relays1, 1⟩
      | .ok (new_stderr, last2, r2) =>
        let output2 := if new_stderr ≠ "" then output1 ++ new_stderr else output1
        let relays2 := if r2 then relays1 + 1 else relays1
        match it.poll with
        | some c => ⟨.broke .exited, some c, output2, last2, kills, relays2, 1⟩
        | none =>
          if last_output_passed it.tCheck last2 timeout then
            ⟨.broke .hang, exitcode, output2, last2, kills + 1, relays2, 1⟩
          else
            stdBump (stdLoop cb timeout last2 exitcode output2 kills relays2 rest)

/-- `StdoutTracer.wait_until_stop_or_exit` (lines 402-426): set both
streams non-blocking (line 403), initialise `last_output` to now (`t0`,
line 404), `output = ""`, `exitcode = None` (lines 405-406), then run the
loop over the environment trace. -/
def wait_until_stop_or_exit (cb : PyCallable) (timeout : Nat) (t0 : Nat)
    (trace : List StdIter) : StdResult :=
  stdLoop cb timeout t0 none "" 0 0 trace

/-- The `(exitcode, output)` pair returned at line 426, available only when
the loop actually broke; a raised exception or a still-running loop returns
nothing to the caller. -/
def returnedPair (r : StdResult) : Option (Option Int × String) :=
  match r.term with
  | .broke _ => some (r.exitcode, r.output)
  | _ => none

/-- Concatenation of the per-iteration texts of a trace prefix, in
iteration order. -/
def concatTexts : List StdIter → String
  | [] => ""
  | it :: rest => StdIter.text it ++ concatTexts rest

/-- An iteration in which both reads come back empty, the process has not
exited, and the silence check (against a `last_output` of `t0`) does not
fire: the loop passes through it without changing any state. -/
def quietIter (timeout t0 : Nat) (it : StdIter) : Bool :=
  chunk it.stdoutRead == "" && chunk it.stderrRead == "" && it.poll.isNone &&
    !last_output_passed it.tCheck t0 timeout

/-- An iteration of a process that produces no output and does not exit. -/
def silentIter (it : StdIter) : Bool :=
  it.stdoutRead.isNone && it.stderrRead.isNone && it.poll.isNone

/-- The `last_output` timestamp after the two reads of an iteration, given
the timestamp before it: each non-empty read moves it to the read's
`datetime.now()` value. -/
def lastT (it : StdIter) (lo : Nat) : Nat :=
  if chunk it.stderrRead = "" then
    (if chunk it.stdoutRead = "" then lo else it.tOut)
  else it.tErr

/-- Number of successful `on_output` invocations in one iteration: one per
non-empty read. -/
def relayN (it : StdIter) : Nat :=
  (if chunk it.stdoutRead = "" then 0 else 1) +
    (if chunk it.stderrRead = "" then 0 else 1)

end StdoutTracer

/-! ## Helper lemmas for the syscall-tracer loop -/

theorem SyscallTracer.finishRun_term (r : SysResult) : (finishRun r).term = r.term := by
  cases r with
  | mk t ec rea eff c => cases t <;> rfl

theorem SyscallTracer.finishRun_exitcode (r : SysResult) :
    (finishRun r).exitcode = r.exitcode := by
  cases r with
  | mk t ec rea eff c => cases t <;> rfl

theorem SyscallTracer.finishRun_reason (r : SysResult) :
    (finishRun r).reason = r.reason := by
  cases r with
  | mk t ec rea eff c => cases t <;> rfl

theorem SyscallTracer.finishRun_injected (r : SysResult) :
    (finishRun r).eff.injected = r.eff.injected := by
  cases r with
  | mk t ec rea eff c => cases t <;> rfl

theorem SyscallTracer.finishRun_eff (r : SysResult) (h : r.term ≠ SysTerm.outOfTrace) :
    (finishRun r).eff = reset_timer r.eff := by
  cases r with
  | mk t ec rea eff c =>
    cases t with
    | emptyBreak => rfl
    | errorBreak => rfl
    | outOfTrace => exact absurd rfl h

theorem SyscallTracer.sysLoop_detachCount (trace : List SysIter) :
    ∀ (ec : Option Int) (rea : String) (eff : SysEff),
      (sysLoop ec rea eff trace).eff.detachCount = eff.detachCount := by
  induction trace with
  | nil => intro ec rea eff; rfl
  | cons it rest ih =>
    intro ec rea eff
    cases it with
    | emptyDbg => rfl
    | wait o =>
      cases o with
      | stopped s => exact ih ec rea _
      | processExit code => exact ih _ rea _
      | processSignal s r => exact ih _ r _
      | newProcessEvent => exact ih ec rea _
      | processExecution => exact ih ec rea _
      | otherError msg => rfl

theorem SyscallTracer.sysLoop_benign (post : List SysIter) :
    ∀ (ec : Option Int) (rea : String) (eff : SysEff),
      (∀ it ∈ post, benignAfter it = true) →
      (sysLoop ec rea eff post).exitcode = ec ∧
      (sysLoop ec rea eff post).reason = rea ∧
      (sysLoop ec rea eff post).eff.injected = eff.injected ∧
      (sysLoop ec rea eff post).term ≠ SysTerm.errorBreak := by
  induction post with
  | nil => exact fun ec rea eff _ => ⟨rfl, rfl, rfl, fun h => nomatch h⟩
  | cons it rest ih =>
    intro ec rea eff hb
    have hit : benignAfter it = true := hb it (List.mem_cons_self it rest)
    have hrest : ∀ j ∈ rest, benignAfter j = true :=
      fun j hj => hb j (List.mem_cons_of_mem it hj)
    cases it with
    | emptyDbg => exact ⟨rfl, rfl, rfl, fun h => nomatch h⟩
    | wait o =>
      cases o with
      | stopped s => exact ih ec rea _ hrest
      | processExit code =>
        cases code with
        | none => exact ih ec rea _ hrest
        | some c => exact Bool.noConfusion hit
      | processSignal s r => exact Bool.noConfusion hit
      | newProcessEvent => exact ih ec rea _ hrest
      | processExecution => exact ih ec rea _ hrest
      | otherError msg => exact Bool.noConfusion hit

/-! ## C1 -/

/-- C1 fails on the code: on a run in which the traced process exits
normally and the loop then breaks at the debugger check,
`wait_until_stop_or_exit` returns without ever having called
`SyscallTracer.detach` - the detach count is 0, not 1. -/
theorem c1_counterexample :
    (SyscallTracer.wait_until_stop_or_exit
        [.wait (.processExit (some 0)), .emptyDbg]).term = SyscallTracer.SysTerm.emptyBreak ∧
    ¬ (SyscallTracer.wait_until_stop_or_exit
        [.wait (.processExit (some 0)), .emptyDbg]).eff.detachCount = 1 :=
  ⟨rfl, by decide⟩

/-- C1 (amended): on every exit path of
`SyscallTracer.wait_until_stop_or_exit` (normal break, error break), the
interval timer is disarmed before the call returns and no armed timer
remains, but `detach` is never called by the function itself - the caller
retains responsibility for releasing the debugger handle. -/
theorem c1_amended (trace : List SyscallTracer.SysIter)
    (h : (SyscallTracer.wait_until_stop_or_exit trace).term ≠ SyscallTracer.SysTerm.outOfTrace) :
    (SyscallTracer.wait_until_stop_or_exit trace).eff.timerArmed = false ∧
    1 ≤ (SyscallTracer.wait_until_stop_or_exit trace).eff.disarmCount ∧
    (SyscallTracer.wait_until_stop_or_exit trace).eff.detachCount = 0 := by
  have hterm : (SyscallTracer.sysLoop none "" (SyscallTracer.resume SyscallTracer.SysEff.init) trace).term
      ≠ SyscallTracer.SysTerm.outOfTrace := by
    intro hc
    exact h (by rw [SyscallTracer.wait_until_stop_or_exit, SyscallTracer.finishRun_term]; exact hc)
  have heff := SyscallTracer.finishRun_eff _ hterm
  rw [SyscallTracer.wait_until_stop_or_exit] at h ⊢
  rw [heff]
  refine ⟨rfl, Nat.succ_le_succ (Nat.zero_le _), ?_⟩
  exact SyscallTracer.sysLoop_detachCount trace none "" (SyscallTracer.resume SyscallTracer.SysEff.init)

/-- Witness for C1 (amended) at a concrete trace. -/
theorem c1_amended_witness :
    (SyscallTracer.wait_until_stop_or_exit [SyscallTracer.SysIter.emptyDbg]).eff.timerArmed = false ∧
    1 ≤ (SyscallTracer.wait_until_stop_or_exit [SyscallTracer.SysIter.emptyDbg]).eff.disarmCount ∧
    (SyscallTracer.wait_until_stop_or_exit [SyscallTracer.SysIter.emptyDbg]).eff.detachCount = 0 :=
  c1_amended [SyscallTracer.SysIter.emptyDbg] (by decide)

/-! ## C2 -/

/-- C2 fails on the code: under the spec scenario (the first wait times out,
the process would later exit with code 0), the loop does not continue - the
`SyscallTimeoutException` falls into the final `except Exception` clause,
which breaks immediately.  The call returns exit code `None` with the
timeout message as reason, consuming only the first wait; the later
`ProcessExit` event is never observed. -/
theorem c2_counterexample :
    (SyscallTracer.wait_until_stop_or_exit
        [.wait (.otherError (syscallTimeoutMessage 123)),
         .wait (.processExit (some 0)), .emptyDbg]).exitcode = none ∧
    (SyscallTracer.wait_until_stop_or_exit
        [.wait (.otherError (syscallTimeoutMessage 123)),
         .wait (.processExit (some 0)), .emptyDbg]).reason = syscallTimeoutMessage 123 ∧
    (SyscallTracer.wait_until_stop_or_exit
        [.wait (.otherError (syscallTimeoutMessage 123)),
         .wait (.processExit (some 0)), .emptyDbg]).consumed = 1 :=
  ⟨rfl, rfl, rfl⟩

/-- C2 (amended): the per-wait timeout terminates the whole call, not just
one wait: a `SyscallTimeoutException` (like any unclassified exception)
raised during a wait makes the loop break at once, returning the exit code
accumulated so far (`None` when it is the first event) and the exception
message as reason, without observing any later event of the process. -/
theorem c2_amended (msg : String) (rest : List SyscallTracer.SysIter) :
    (SyscallTracer.wait_until_stop_or_exit
        (.wait (.otherError msg) :: rest)).term = SyscallTracer.SysTerm.errorBreak ∧
    (SyscallTracer.wait_until_stop_or_exit (.wait (.otherError msg) :: rest)).exitcode = none ∧
    (SyscallTracer.wait_until_stop_or_exit (.wait (.otherError msg) :: rest)).reason = msg ∧
    (SyscallTracer.wait_until_stop_or_exit (.wait (.otherError msg) :: rest)).consumed = 1 :=
  ⟨rfl, rfl, rfl, rfl⟩

/-! ## C4 -/

/-- C4 fails on the code: calling `detach` on a `SyscallTracer` whose
`attach` never succeeded (so `self.process` is still `None`, as set by
`__init__`) raises `AttributeError` - it is a crash, not a reported
error. -/
theorem c4_counterexample :
    SyscallTracer.detach SyscallTracer.processAfterInit
      = Except.error "AttributeError: NoneType object has no attribute detach" := rfl

/-- C4 (amended): `SyscallTracer.detach` succeeds exactly when a process is
attached; when `attach` never succeeded (`self.process` is `None`) it
raises instead of reporting an error. -/
theorem c4_amended (process : Option Int) :
    SyscallTracer.detach process = Except.ok () ↔ process.isSome = true := by
  cases process <;> simp [SyscallTracer.detach]

/-! ## C9 -/

/-- C9: when the syscall tracer observes a `ProcessSignal` event and the
process then terminates without a concrete exit code (every later event is
benign, e.g. a `ProcessExit` carrying `None` followed by the debugger
turning falsy), the returned exit code is the synthetic `128 + signum`
mapping, the returned reason is the signal event's reason text, and the
signal was re-injected into the process before the loop continued. -/
theorem c9_signal_mapping (s : Int) (r : String) (post : List SyscallTracer.SysIter)
    (hpost : ∀ it ∈ post, SyscallTracer.benignAfter it = true) :
    (SyscallTracer.wait_until_stop_or_exit
        (.wait (.processSignal s r) :: post)).exitcode = some (128 + s) ∧
    (SyscallTracer.wait_until_stop_or_exit (.wait (.processSignal s r) :: post)).reason = r ∧
    (SyscallTracer.wait_until_stop_or_exit
        (.wait (.processSignal s r) :: post)).eff.injected = [s] := by
  have hb := SyscallTracer.sysLoop_benign post (some (signal_to_exitcode s)) r
    (SyscallTracer.resumeWithSignal s
      (SyscallTracer.set_timer (SyscallTracer.resume SyscallTracer.SysEff.init))) hpost
  refine ⟨?_, ?_, ?_⟩
  · rw [SyscallTracer.wait_until_stop_or_exit, SyscallTracer.finishRun_exitcode]
    exact hb.1
  · rw [SyscallTracer.wait_until_stop_or_exit, SyscallTracer.finishRun_reason]
    exact hb.2.1
  · rw [SyscallTracer.wait_until_stop_or_exit, SyscallTracer.finishRun_injected]
    exact hb.2.2.1

/-- Witness for C9 at a concrete signal: SIGTERM (15) maps to exit code
143 with the event's reason retained and the signal re-injected. -/
theorem c9_signal_mapping_witness :
    (SyscallTracer.wait_until_stop_or_exit
        [.wait (.processSignal 15 "Signal SIGTERM"),
         .wait (.processExit none), .emptyDbg]).exitcode = some 143 ∧
    (SyscallTracer.wait_until_stop_or_exit
        [.wait (.processSignal 15 "Signal SIGTERM"),
         .wait (.processExit none), .emptyDbg]).reason = "Signal SIGTERM" ∧
    (SyscallTracer.wait_until_stop_or_exit
        [.wait (.processSignal 15 "Signal SIGTERM"),
         .wait (.processExit none), .emptyDbg]).eff.injected = [15] :=
  c9_signal_mapping 15 "Signal SIGTERM" [.wait (.processExit none), .emptyDbg] (by decide)

/-! ## Helper lemmas for the output-tracer loop -/

theorem StdoutTracer.get_output_none (cb : PyCallable) (rr : Option String)
    (tN lo : Nat) (h : chunk rr = "") :
    get_output cb rr tN lo = Except.ok ("", lo, false) := by
  simp [get_output, h]

theorem StdoutTracer.get_output_ok (cb : PyCallable) (hcb : cb.arity = 2)
    (rr : Option String) (tN lo : Nat) (h : chunk rr ≠ "") :
    get_output cb rr tN lo = Except.ok (chunk rr, tN, true) := by
  simp [get_output, h, callOnOutput, hcb]

theorem StdoutTracer.get_output_raises (cb : PyCallable) (hcb : ¬ cb.arity = 2)
    (rr : Option String) (tN lo : Nat) (h : chunk rr ≠ "") :
    get_output cb rr tN lo = Except.error (typeErrMsg cb) := by
  simp [get_output, h, callOnOutput, hcb]

/-- Normal form of one loop iteration when the callback accepts two
arguments (so no read can raise): the iteration's text is appended, the
`last_output` timestamp advances per non-empty read, the relay count grows
by one per non-empty read, and then the poll check and the silence check
run in that order. -/
theorem StdoutTracer.stdLoop_cons_arity2 (cb : PyCallable) (hcb : cb.arity = 2)
    (timeout lo : Nat) (ec : Option Int) (out : String) (k rl : Nat)
    (it : StdIter) (rest : List StdIter) :
    stdLoop cb timeout lo ec out k rl (it :: rest)
      = (match it.poll with
         | some c =>
           ⟨StdTerm.broke StdCause.exited, some c, out ++ StdIter.text it,
             lastT it lo, k, rl + relayN it, 1⟩
         | none =>
           if last_output_passed it.tCheck (lastT it lo) timeout then
             ⟨StdTerm.broke StdCause.hang, ec, out ++ StdIter.text it,
               lastT it lo, k + 1, rl + relayN it, 1⟩
           else
             stdBump (stdLoop cb timeout (lastT it lo) ec (out ++ StdIter.text it)
               k (rl + relayN it) rest)) := by
  by_cases h1 : chunk it.stdoutRead = ""
  · by_cases h2 : chunk it.stderrRead = ""
    · simp only [stdLoop, get_output_none cb it.stdoutRead it.tOut lo h1,
        get_output_none cb it.stderrRead it.tErr lo h2]
      simp [lastT, relayN, StdIter.text, h1, h2, String.append_empty]
    · simp only [stdLoop, get_output_none cb it.stdoutRead it.tOut lo h1,
        get_output_ok cb hcb it.stderrRead it.tErr lo h2]
      simp [lastT, relayN, StdIter.text, h1, h2, String.append_empty]
  · by_cases h2 : chunk it.stderrRead = ""
    · simp only [stdLoop, get_output_ok cb hcb it.stdoutRead it.tOut lo h1,
        get_output_none cb it.stderrRead it.tErr it.tOut h2]
      simp [lastT, relayN, StdIter.text, h1, h2, String.append_empty]
    · simp only [stdLoop, get_output_ok cb hcb it.stdoutRead it.tOut lo h1,
        get_output_ok cb hcb it.stderrRead it.tErr it.tOut h2]
      simp [lastT, relayN, StdIter.text, h1, h2, String.append_assoc]

/-- Normal form of one loop iteration when both reads come back empty:
no callback is invoked (so the callback's arity is irrelevant), nothing is
appended, and the `last_output` timestamp is unchanged. -/
theorem StdoutTracer.stdLoop_cons_empty (cb : PyCallable)
    (timeout lo : Nat) (ec : Option Int) (out : String) (k rl : Nat)
    (it : StdIter) (rest : List StdIter)
    (h1 : chunk it.stdoutRead = "") (h2 : chunk it.stderrRead = "") :
    stdLoop cb timeout lo ec out k rl (it :: rest)
      = (match it.poll with
         | some c =>
           ⟨StdTerm.broke StdCause.exited, some c, out ++ StdIter.text it,
             lastT it lo, k, rl + relayN it, 1⟩
         | none =>
           if last_output_passed it.tCheck (lastT it lo) timeout then
             ⟨StdTerm.broke StdCause.hang, ec, out ++ StdIter.text it,
               lastT it lo, k + 1, rl + relayN it, 1⟩
           else
             stdBump (stdLoop cb timeout (lastT it lo) ec (out ++ StdIter.text it)
               k (rl + relayN it) rest)) := by
  simp only [stdLoop, get_output_none cb it.stdoutRead it.tOut lo h1,
    get_output_none cb it.stderrRead it.tErr lo h2]
  simp [lastT, relayN, StdIter.text, h1, h2, String.append_empty]

/-- Normal form of one loop iteration when the callback does not accept two
arguments and at least one read is non-empty: the first non-empty read
raises TypeError inside `get_output`, so the iteration ends the whole call
with a propagating exception, and nothing is appended or relayed. -/
theorem StdoutTracer.stdLoop_cons_raise (cb : PyCallable) (hcb : ¬ cb.arity = 2)
    (timeout lo : Nat) (ec : Option Int) (out : String) (k rl : Nat)
    (it : StdIter) (rest : List StdIter)
    (h : chunk it.stdoutRead ≠ "" ∨ (chunk it.stdoutRead = "" ∧ chunk it.stderrRead ≠ "")) :
    stdLoop cb timeout lo ec out k rl (it :: rest)
      = ⟨StdTerm.raised (typeErrMsg cb), ec, out, lo, k, rl, 1⟩ := by
  rcases h with h1 | ⟨h1, h2⟩
  · simp only [stdLoop, get_output_raises cb hcb it.stdoutRead it.tOut lo h1]
  · simp only [stdLoop, get_output_none cb it.stdoutRead it.tOut lo h1,
      get_output_raises cb hcb it.stderrRead it.tErr lo h2]
    simp

theorem StdoutTracer.stdLoop_killCount (cb : PyCallable) (timeout : Nat) :
    ∀ (trace : List StdIter) (lo : Nat) (ec : Option Int) (out : String) (k rl : Nat),
      (stdLoop cb timeout lo ec out k rl trace).killCount
        = k + (if (stdLoop cb timeout lo ec out k rl trace).term
                  = StdTerm.broke StdCause.hang then 1 else 0) := by
  intro trace
  induction trace with
  | nil => intro lo ec out k rl; simp [stdLoop]
  | cons it rest ih =>
    intro lo ec out k rl
    by_cases ha : cb.arity = 2
    · rw [stdLoop_cons_arity2 cb ha]
      cases hpoll : it.poll with
      | some c => simp
      | none =>
        by_cases hsil : last_output_passed it.tCheck (lastT it lo) timeout = true
        · rw [if_pos hsil]; simp
        · rw [if_neg hsil]; exact ih _ _ _ _ _
    · by_cases h1 : chunk it.stdoutRead = ""
      · by_cases h2 : chunk it.stderrRead = ""
        · rw [stdLoop_cons_empty cb timeout lo ec out k rl it rest h1 h2]
          cases hpoll : it.poll with
          | some c => simp
          | none =>
            by_cases hsil : last_output_passed it.tCheck (lastT it lo) timeout = true
            · rw [if_pos hsil]; simp
            · rw [if_neg hsil]; exact ih _ _ _ _ _
        · rw [stdLoop_cons_raise cb ha timeout lo ec out k rl it rest (Or.inr ⟨h1, h2⟩)]
          simp
      · rw [stdLoop_cons_raise cb ha timeout lo ec out k rl it rest (Or.inl h1)]
        simp

theorem StdoutTracer.stdLoop_exitcode (cb : PyCallable) (timeout : Nat) :
    ∀ (trace : List StdIter) (lo : Nat) (ec : Option Int) (out : String) (k rl : Nat),
      (stdLoop cb timeout lo ec out k rl trace).term ≠ StdTerm.broke StdCause.exited →
      (stdLoop cb timeout lo ec out k rl trace).exitcode = ec := by
  intro trace
  induction trace with
  | nil => intro lo ec out k rl _; rfl
  | cons it rest ih =>
    intro lo ec out k rl
    by_cases ha : cb.arity = 2
    · rw [stdLoop_cons_arity2 cb ha]
      cases hpoll : it.poll with
      | some c => intro h; exact absurd rfl h
      | none =>
        by_cases hsil : last_output_passed it.tCheck (lastT it lo) timeout = true
        · rw [if_pos hsil]; intro _; rfl
        · rw [if_neg hsil]; exact ih _ _ _ _ _
    · by_cases h1 : chunk it.stdoutRead = ""
      · by_cases h2 : chunk it.stderrRead = ""
        · rw [stdLoop_cons_empty cb timeout lo ec out k rl it rest h1 h2]
          cases hpoll : it.poll with
          | some c => intro h; exact absurd rfl h
          | none =>
            by_cases hsil : last_output_passed it.tCheck (lastT it lo) timeout = true
            · rw [if_pos hsil]; intro _; rfl
            · rw [if_neg hsil]; exact ih _ _ _ _ _
        · rw [stdLoop_cons_raise cb ha timeout lo ec out k rl it rest (Or.inr ⟨h1, h2⟩)]
          intro _; rfl
      · rw [stdLoop_cons_raise cb ha timeout lo ec out k rl it rest (Or.inl h1)]
        intro _; rfl

theorem StdoutTracer.stdLoop_output (cb : PyCallable) (hcb : cb.arity = 2) (timeout : Nat) :
    ∀ (trace : List StdIter) (lo : Nat) (ec : Option Int) (out : String) (k rl : Nat),
      (stdLoop cb timeout lo ec out k rl trace).output
        = out ++ concatTexts (trace.take (stdLoop cb timeout lo ec out k rl trace).consumed) := by
  intro trace
  induction trace with
  | nil =>
    intro lo ec out k rl
    simp [stdLoop, concatTexts, String.append_empty]
  | cons it rest ih =>
    intro lo ec out k rl
    rw [stdLoop_cons_arity2 cb hcb]
    cases hpoll : it.poll with
    | some c => simp [concatTexts, String.append_empty]
    | none =>
      by_cases hsil : last_output_passed it.tCheck (lastT it lo) timeout
      · simp [hsil, concatTexts, String.append_empty]
      · simp only [hsil, if_false, Bool.false_eq_true]
        simp only [stdBump, List.take_succ_cons, concatTexts]
        rw [ih (lastT it lo) ec (out ++ StdIter.text it) k (rl + relayN it),
          String.append_assoc]

theorem StdoutTracer.stdLoop_quiet_raise (cb : PyCallable) (hcb : ¬ cb.arity = 2)
    (timeout : Nat) :
    ∀ (pre : List StdIter) (lo : Nat) (ec : Option Int) (out : String) (k rl : Nat),
      (∀ j ∈ pre, quietIter timeout lo j = true) →
      ∀ (it : StdIter) (rest : List StdIter),
        (chunk it.stdoutRead ≠ "" ∨ (chunk it.stdoutRead = "" ∧ chunk it.stderrRead ≠ "")) →
        stdLoop cb timeout lo ec out k rl (pre ++ it :: rest)
          = ⟨StdTerm.raised (typeErrMsg cb), ec, out, lo, k, rl, pre.length + 1⟩ := by
  intro pre
  induction pre with
  | nil =>
    intro lo ec out k rl _ it rest hit
    exact stdLoop_cons_raise cb hcb timeout lo ec out k rl it rest hit
  | cons j pre' ih =>
    intro lo ec out k rl hq it rest hit
    have hj := hq j (List.mem_cons_self j pre')
    simp only [quietIter, Bool.and_eq_true, beq_iff_eq, Option.isNone_iff_eq_none,
      Bool.not_eq_eq_eq_not, Bool.not_true] at hj
    obtain ⟨⟨⟨hj1, hj2⟩, hj3⟩, hj4⟩ := hj
    have hq' : ∀ x ∈ pre', quietIter timeout lo x = true :=
      fun x hx => hq x (List.mem_cons_of_mem j hx)
    rw [List.cons_append, stdLoop_cons_empty cb timeout lo ec out k rl j _ hj1 hj2, hj3]
    have hlt : lastT j lo = lo := by simp [lastT, hj1, hj2]
    rw [hlt]
    rw [if_neg (by rw [hj4]; exact Bool.false_ne_true)]
    have htext : out ++ StdIter.text j = out := by
      simp [StdIter.text, hj1, hj2, String.append_empty]
    have hrel : rl + relayN j = rl := by simp [relayN, hj1, hj2]
    rw [htext, hrel, ih lo ec out k rl hq' it rest hit]
    simp [stdBump]

theorem StdoutTracer.stdLoop_silent (cb : PyCallable) (timeout : Nat) :
    ∀ (trace : List StdIter) (lo : Nat) (ec : Option Int) (out : String) (k rl : Nat),
      (∀ it ∈ trace, silentIter it = true) →
      ((stdLoop cb timeout lo ec out k rl trace).term = StdTerm.broke StdCause.hang
        ↔ ∃ it ∈ trace, last_output_passed it.tCheck lo timeout = true) := by
  intro trace
  induction trace with
  | nil =>
    intro lo ec out k rl _
    simp [stdLoop]
  | cons it rest ih =>
    intro lo ec out k rl hsilent
    have hit := hsilent it (List.mem_cons_self it rest)
    simp only [silentIter, Bool.and_eq_true, Option.isNone_iff_eq_none] at hit
    obtain ⟨⟨h1, h2⟩, h3⟩ := hit
    have hrest : ∀ j ∈ rest, silentIter j = true :=
      fun j hj => hsilent j (List.mem_cons_of_mem it hj)
    have hc1 : chunk it.stdoutRead = "" := by rw [h1]; rfl
    have hc2 : chunk it.stderrRead = "" := by rw [h2]; rfl
    rw [stdLoop_cons_empty cb timeout lo ec out k rl it rest hc1 hc2, h3]
    have hlt : lastT it lo = lo := by simp [lastT, hc1, hc2]
    rw [hlt]
    by_cases hsil : last_output_passed it.tCheck lo timeout = true
    · rw [if_pos hsil]
      constructor
      · intro _
        exact ⟨it, List.mem_cons_self it rest, hsil⟩
      · intro _
        rfl
    · rw [if_neg hsil]
      have hih := ih lo ec (out ++ StdIter.text it) k (rl + relayN it) hrest
      constructor
      · intro h
        obtain ⟨j, hj, hcond⟩ := hih.mp h
        exact ⟨j, List.mem_cons_of_mem it hj, hcond⟩
      · rintro ⟨j, hj, hcond⟩
        rcases List.mem_cons.mp hj with hjit | hj'
        · rw [hjit] at hcond
          exact absurd hcond hsil
        · exact hih.mpr ⟨j, hj', hcond⟩

/-! ## C3 -/

/-- C3 fails on the code: a `StdoutTracer` constructed with the default
output callback raises a TypeError out of `wait_until_stop_or_exit` on the
first non-empty read - the exception escapes to the caller and no
(exit code, output) pair is returned. -/
theorem c3_counterexample :
    (StdoutTracer.wait_until_stop_or_exit StdoutTracer.defaultOnOutput 30 0
        [⟨some "x", 100, none, 100, none, 100⟩]).term
      = StdoutTracer.StdTerm.raised (StdoutTracer.typeErrMsg StdoutTracer.defaultOnOutput) ∧
    StdoutTracer.returnedPair
        (StdoutTracer.wait_until_stop_or_exit StdoutTracer.defaultOnOutput 30 0
          [⟨some "x", 100, none, 100, none, 100⟩]) = none :=
  ⟨rfl, rfl⟩

/-- C3 (amended): the two tracers differ.  An exception raised during a
wait of `SyscallTracer.wait_until_stop_or_exit` is converted into the
returned pair (the loop breaks with the message as reason), but
`StdoutTracer.wait_until_stop_or_exit` has no exception handling: whenever
its callback does not accept two arguments (as with the default), a
non-empty first read makes a TypeError escape to the caller. -/
theorem c3_amended (msg : String) (sysRest : List SyscallTracer.SysIter)
    (cb : StdoutTracer.PyCallable) (hcb : ¬ cb.arity = 2)
    (s : String) (hs : ¬ s = "") (t1 t2 t3 : Nat) (err : Option String) (p : Option Int)
    (stdRest : List StdoutTracer.StdIter) (timeout t0 : Nat) :
    (SyscallTracer.wait_until_stop_or_exit (.wait (.otherError msg) :: sysRest)).term
        = SyscallTracer.SysTerm.errorBreak ∧
    (SyscallTracer.wait_until_stop_or_exit (.wait (.otherError msg) :: sysRest)).reason = msg ∧
    (StdoutTracer.wait_until_stop_or_exit cb timeout t0
        (⟨some s, t1, err, t2, p, t3⟩ :: stdRest)).term
      = StdoutTracer.StdTerm.raised (StdoutTracer.typeErrMsg cb) := by
  refine ⟨rfl, rfl, ?_⟩
  have hchunk :
      StdoutTracer.chunk (StdoutTracer.StdIter.stdoutRead ⟨some s, t1, err, t2, p, t3⟩) ≠ "" := hs
  rw [StdoutTracer.wait_until_stop_or_exit,
    StdoutTracer.stdLoop_cons_raise cb hcb timeout t0 none "" 0 0 _ stdRest (Or.inl hchunk)]

/-- Witness for C3 (amended) at concrete inputs. -/
theorem c3_amended_witness :
    (SyscallTracer.wait_until_stop_or_exit [.wait (.otherError "boom")]).term
        = SyscallTracer.SysTerm.errorBreak ∧
    (SyscallTracer.wait_until_stop_or_exit [.wait (.otherError "boom")]).reason = "boom" ∧
    (StdoutTracer.wait_until_stop_or_exit ⟨0⟩ 30 0
        [⟨some "x", 100, none, 100, none, 100⟩]).term
      = StdoutTracer.StdTerm.raised (StdoutTracer.typeErrMsg ⟨0⟩) :=
  c3_amended "boom" [] ⟨0⟩ (by decide) "x" (by decide) 100 100 100 none none [] 30 0

/-! ## C5 -/

/-- C5: in `StdoutTracer.wait_until_stop_or_exit`, for every callback,
timeout, start time and process behaviour, the process is killed (exactly
once) if and only if the loop breaks through the silence-timeout path, and
on that path the returned exit code is `None`; on any other outcome no kill
happens. -/
theorem c5_kill_iff_timeout (cb : StdoutTracer.PyCallable) (timeout t0 : Nat)
    (trace : List StdoutTracer.StdIter) :
    ((StdoutTracer.wait_until_stop_or_exit cb timeout t0 trace).killCount = 1 ↔
      (StdoutTracer.wait_until_stop_or_exit cb timeout t0 trace).term
        = StdoutTracer.StdTerm.broke StdoutTracer.StdCause.hang) ∧
    ((StdoutTracer.wait_until_stop_or_exit cb timeout t0 trace).term
        = StdoutTracer.StdTerm.broke StdoutTracer.StdCause.hang →
      (StdoutTracer.wait_until_stop_or_exit cb timeout t0 trace).exitcode = none) ∧
    ((StdoutTracer.wait_until_stop_or_exit cb timeout t0 trace).term
        ≠ StdoutTracer.StdTerm.broke StdoutTracer.StdCause.hang →
      (StdoutTracer.wait_until_stop_or_exit cb timeout t0 trace).killCount = 0) := by
  have hk := StdoutTracer.stdLoop_killCount cb timeout trace t0 none "" 0 0
  simp only [StdoutTracer.wait_until_stop_or_exit]
  refine ⟨?_, ?_, ?_⟩
  · rw [hk]
    by_cases h : (StdoutTracer.stdLoop cb timeout t0 none "" 0 0 trace).term
        = StdoutTracer.StdTerm.broke StdoutTracer.StdCause.hang
    · simp [h]
    · simp [h]
  · intro h
    refine StdoutTracer.stdLoop_exitcode cb timeout trace t0 none "" 0 0 ?_
    rw [h]
    intro hx
    exact StdoutTracer.StdCause.noConfusion (StdoutTracer.StdTerm.broke.inj hx)
  · intro h
    rw [hk]
    simp [h]

/-- Witness for C5 at a concrete silent trace that takes the kill path. -/
theorem c5_kill_iff_timeout_witness :
    ((StdoutTracer.wait_until_stop_or_exit ⟨2⟩ 30 0
        [⟨none, 0, none, 0, none, 31000⟩]).killCount = 1 ↔
      (StdoutTracer.wait_until_stop_or_exit ⟨2⟩ 30 0
        [⟨none, 0, none, 0, none, 31000⟩]).term
        = StdoutTracer.StdTerm.broke StdoutTracer.StdCause.hang) ∧
    ((StdoutTracer.wait_until_stop_or_exit ⟨2⟩ 30 0
        [⟨none, 0, none, 0, none, 31000⟩]).term
        = StdoutTracer.StdTerm.broke StdoutTracer.StdCause.hang →
      (StdoutTracer.wait_until_stop_or_exit ⟨2⟩ 30 0
        [⟨none, 0, none, 0, none, 31000⟩]).exitcode = none) ∧
    ((StdoutTracer.wait_until_stop_or_exit ⟨2⟩ 30 0
        [⟨none, 0, none, 0, none, 31000⟩]).term
        ≠ StdoutTracer.StdTerm.broke StdoutTracer.StdCause.hang →
      (StdoutTracer.wait_until_stop_or_exit ⟨2⟩ 30 0
        [⟨none, 0, none, 0, none, 31000⟩]).killCount = 0) :=
  c5_kill_iff_timeout ⟨2⟩ 30 0 [⟨none, 0, none, 0, none, 31000⟩]

/-! ## C6 -/

/-- C6: in every iteration of the `StdoutTracer` loop (i.e. from any loop
state), when the process has exited (`poll` returns a code), both streams
are still read first and their bytes appended to the accumulated output
before the exit check breaks the loop: the result carries the previous
output extended by this iteration's text. -/
theorem c6_reads_before_exit_check (cb : StdoutTracer.PyCallable) (hcb : cb.arity = 2)
    (timeout lo : Nat) (ec : Option Int) (out : String) (k rl : Nat)
    (it : StdoutTracer.StdIter) (rest : List StdoutTracer.StdIter)
    (c : Int) (hpoll : it.poll = some c) :
    (StdoutTracer.stdLoop cb timeout lo ec out k rl (it :: rest)).term
        = StdoutTracer.StdTerm.broke StdoutTracer.StdCause.exited ∧
    (StdoutTracer.stdLoop cb timeout lo ec out k rl (it :: rest)).exitcode = some c ∧
    (StdoutTracer.stdLoop cb timeout lo ec out k rl (it :: rest)).output
        = out ++ StdoutTracer.StdIter.text it := by
  rw [StdoutTracer.stdLoop_cons_arity2 cb hcb, hpoll]
  exact ⟨rfl, rfl, rfl⟩

/-- Witness for C6: trailing output "tail"/"err" arriving in the very
iteration in which the process exits with code 0 is still captured. -/
theorem c6_reads_before_exit_check_witness :
    (StdoutTracer.stdLoop ⟨2⟩ 30 0 none "prev" 0 0
        [⟨some "tail", 5, some "err", 6, some 0, 7⟩]).term
        = StdoutTracer.StdTerm.broke StdoutTracer.StdCause.exited ∧
    (StdoutTracer.stdLoop ⟨2⟩ 30 0 none "prev" 0 0
        [⟨some "tail", 5, some "err", 6, some 0, 7⟩]).exitcode = some 0 ∧
    (StdoutTracer.stdLoop ⟨2⟩ 30 0 none "prev" 0 0
        [⟨some "tail", 5, some "err", 6, some 0, 7⟩]).output
        = "prev" ++ StdoutTracer.StdIter.text ⟨some "tail", 5, some "err", 6, some 0, 7⟩ :=
  c6_reads_before_exit_check ⟨2⟩ rfl 30 0 none "prev" 0 0
    ⟨some "tail", 5, some "err", 6, some 0, 7⟩ [] 0 rfl

/-! ## C7 -/

/-- C7: the output accumulated by `StdoutTracer.wait_until_stop_or_exit`
is exactly the concatenation, in iteration order, of each consumed
iteration's stdout chunk followed by its stderr chunk.  In particular
capture is order-preserving per stream, and within one iteration stdout
bytes precede stderr bytes. -/
theorem c7_order_preserving (cb : StdoutTracer.PyCallable) (hcb : cb.arity = 2)
    (timeout t0 : Nat) (trace : List StdoutTracer.StdIter) :
    (StdoutTracer.wait_until_stop_or_exit cb timeout t0 trace).output
      = StdoutTracer.concatTexts
          (trace.take (StdoutTracer.wait_until_stop_or_exit cb timeout t0 trace).consumed) := by
  have h := StdoutTracer.stdLoop_output cb hcb timeout trace t0 none "" 0 0
  simpa [StdoutTracer.wait_until_stop_or_exit, String.empty_append] using h

/-- Witness for C7: the spec scenario - "a" then "b" on stdout in separate
iterations, then exit - yields their concatenation in production order. -/
theorem c7_order_preserving_witness :
    (StdoutTracer.wait_until_stop_or_exit ⟨2⟩ 30 0
        [⟨some "a", 10, none, 10, none, 10⟩,
         ⟨some "b", 500, none, 500, some 0, 500⟩]).output
      = StdoutTracer.concatTexts
          ([⟨some "a", 10, none, 10, none, 10⟩,
            (⟨some "b", 500, none, 500, some 0, 500⟩ : StdoutTracer.StdIter)].take
            (StdoutTracer.wait_until_stop_or_exit ⟨2⟩ 30 0
              [⟨some "a", 10, none, 10, none, 10⟩,
               ⟨some "b", 500, none, 500, some 0, 500⟩]).consumed) :=
  c7_order_preserving ⟨2⟩ rfl 30 0
    [⟨some "a", 10, none, 10, none, 10⟩, ⟨some "b", 500, none, 500, some 0, 500⟩]

/-! ## C8 -/

/-- C8 fails on the code: a process silent since time 0 under a 30-second
timeout is polled at 30.1s, 30.5s and 30.999s - all strictly more than the
configured timeout, the last nearly a full second past it - and the tracer
kills nothing, because `last_output_passed` compares the truncated
whole-second part of the elapsed time (`timedelta.seconds`) strictly
against the timeout.  The kill is therefore not within one poll interval
of the configured timeout. -/
theorem c8_counterexample :
    (StdoutTracer.wait_until_stop_or_exit ⟨2⟩ 30 0
        [⟨none, 0, none, 0, none, 30100⟩, ⟨none, 0, none, 0, none, 30500⟩,
         ⟨none, 0, none, 0, none, 30999⟩]).killCount = 0 ∧
    (StdoutTracer.wait_until_stop_or_exit ⟨2⟩ 30 0
        [⟨none, 0, none, 0, none, 30100⟩, ⟨none, 0, none, 0, none, 30500⟩,
         ⟨none, 0, none, 0, none, 30999⟩]).term = StdoutTracer.StdTerm.outOfTrace :=
  ⟨rfl, rfl⟩

/-- C8 (amended): for a process producing no output and not exiting, the
hang detection fires at exactly the first poll whose elapsed time since
`last_output`, truncated to whole seconds (and reduced modulo one day),
strictly exceeds the configured timeout - so the kill happens only once
elapsed time reaches timeout + 1 second, not within one poll interval of
the timeout; on that path the exit code is absent and the process is
killed exactly once. -/
theorem c8_amended (cb : StdoutTracer.PyCallable) (timeout t0 : Nat)
    (trace : List StdoutTracer.StdIter)
    (hsilent : ∀ it ∈ trace, StdoutTracer.silentIter it = true) :
    ((StdoutTracer.wait_until_stop_or_exit cb timeout t0 trace).term
        = StdoutTracer.StdTerm.broke StdoutTracer.StdCause.hang
      ↔ ∃ it ∈ trace, StdoutTracer.last_output_passed it.tCheck t0 timeout = true) ∧
    ((StdoutTracer.wait_until_stop_or_exit cb timeout t0 trace).term
        = StdoutTracer.StdTerm.broke StdoutTracer.StdCause.hang →
      (StdoutTracer.wait_until_stop_or_exit cb timeout t0 trace).exitcode = none ∧
      (StdoutTracer.wait_until_stop_or_exit cb timeout t0 trace).killCount = 1) := by
  have hs := StdoutTracer.stdLoop_silent cb timeout trace t0 none "" 0 0 hsilent
  have hk := StdoutTracer.stdLoop_killCount cb timeout trace t0 none "" 0 0
  simp only [StdoutTracer.wait_until_stop_or_exit]
  constructor
  · exact hs
  · intro h
    constructor
    · refine StdoutTracer.stdLoop_exitcode cb timeout trace t0 none "" 0 0 ?_
      rw [h]
      intro hx
      exact StdoutTracer.StdCause.noConfusion (StdoutTracer.StdTerm.broke.inj hx)
    · rw [hk]
      simp [h]

/-- Witness for C8 (amended): silent process polled at 31.5s under a
30-second timeout - whole-second elapsed 31 > 30, so the kill fires. -/
theorem c8_amended_witness :
    ((StdoutTracer.wait_until_stop_or_exit ⟨2⟩ 30 0
        [⟨none, 0, none, 0, none, 31500⟩]).term
        = StdoutTracer.StdTerm.broke StdoutTracer.StdCause.hang
      ↔ ∃ it ∈ [(⟨none, 0, none, 0, none, 31500⟩ : StdoutTracer.StdIter)],
          StdoutTracer.last_output_passed it.tCheck 0 30 = true) ∧
    ((StdoutTracer.wait_until_stop_or_exit ⟨2⟩ 30 0
        [⟨none, 0, none, 0, none, 31500⟩]).term
        = StdoutTracer.StdTerm.broke StdoutTracer.StdCause.hang →
      (StdoutTracer.wait_until_stop_or_exit ⟨2⟩ 30 0
        [⟨none, 0, none, 0, none, 31500⟩]).exitcode = none ∧
      (StdoutTracer.wait_until_stop_or_exit ⟨2⟩ 30 0
        [⟨none, 0, none, 0, none, 31500⟩]).killCount = 1) :=
  c8_amended ⟨2⟩ 30 0 [⟨none, 0, none, 0, none, 31500⟩] (by decide)

/-! ## C10 -/

/-- C10: a `StdoutTracer` constructed without an explicit `on_output`
argument gets the zero-parameter default `lambda: None`, while `get_output`
invokes the callback with two arguments; hence after any quiet prefix, the
first iteration with a non-empty read on either stream raises a TypeError
out of `wait_until_stop_or_exit` instead of relaying the output: nothing is
ever relayed or accumulated. -/
theorem c10_default_callback (timeout t0 : Nat) (pre : List StdoutTracer.StdIter)
    (hpre : ∀ j ∈ pre, StdoutTracer.quietIter timeout t0 j = true)
    (it : StdoutTracer.StdIter)
    (hit : StdoutTracer.chunk it.stdoutRead ≠ "" ∨
      (StdoutTracer.chunk it.stdoutRead = "" ∧ StdoutTracer.chunk it.stderrRead ≠ ""))
    (rest : List StdoutTracer.StdIter) :
    (StdoutTracer.wait_until_stop_or_exit StdoutTracer.defaultOnOutput timeout t0
        (pre ++ it :: rest)).term
      = StdoutTracer.StdTerm.raised (StdoutTracer.typeErrMsg StdoutTracer.defaultOnOutput) ∧
    (StdoutTracer.wait_until_stop_or_exit StdoutTracer.defaultOnOutput timeout t0
        (pre ++ it :: rest)).relayCount = 0 ∧
    (StdoutTracer.wait_until_stop_or_exit StdoutTracer.defaultOnOutput timeout t0
        (pre ++ it :: rest)).output = "" := by
  have h := StdoutTracer.stdLoop_quiet_raise StdoutTracer.defaultOnOutput (by decide) timeout
    pre t0 none "" 0 0 hpre it rest hit
  simp only [StdoutTracer.wait_until_stop_or_exit]
  rw [h]
  exact ⟨rfl, rfl, rfl⟩

/-- Witness for C10: one quiet poll, then "hello" arrives on stdout - the
default callback raises TypeError and nothing is relayed. -/
theorem c10_default_callback_witness :
    (StdoutTracer.wait_until_stop_or_exit StdoutTracer.defaultOnOutput 30 0
        ([⟨none, 0, none, 0, none, 50⟩] ++
          ⟨some "hello", 200, none, 200, none, 200⟩ :: [])).term
      = StdoutTracer.StdTerm.raised (StdoutTracer.typeErrMsg StdoutTracer.defaultOnOutput) ∧
    (StdoutTracer.wait_until_stop_or_exit StdoutTracer.defaultOnOutput 30 0
        ([⟨none, 0, none, 0, none, 50⟩] ++
          ⟨some "hello", 200, none, 200, none, 200⟩ :: [])).relayCount = 0 ∧
    (StdoutTracer.wait_until_stop_or_exit StdoutTracer.defaultOnOutput 30 0
        ([⟨none, 0, none, 0, none, 50⟩] ++
          ⟨some "hello", 200, none, 200, none, 200⟩ :: [])).output = "" :=
  c10_default_callback 30 0 [⟨none, 0, none, 0, none, 50⟩] (by decide)
    ⟨some "hello", 200, none, 200, none, 200⟩ (Or.inl (by decide)) []

end Swarms
